import Mathlib

/-!
Shallow embedding of `src/riscv/riscv_sim.c` (the lock-step co-simulation
harness): boot-image construction (`init_sail_reset_vector`), the state
comparator (`compare_states`), and the step/tick scheduling loop
(`run_sail`), together with the termination logic (`finish`).

Machine integers are modelled as `Nat`/`Int` with explicit `% 2 ^ w`
where overflow matters.  Guest memory is a function from byte address to
stored value.  The externally-linked engines (the generated Sail model
and the Spike oracle) are modelled as behaviour traces: per-call step
results and per-call architectural snapshots.
-/

namespace SailRiscvSim

/-! Section: Guest memory

`write_mem` is the RTS byte-store used by `init_sail_reset_vector`; the
harness only ever passes byte-sized values to it. -/

abbrev Mem := Nat → Nat

def write_mem (m : Mem) (addr v : Nat) : Mem :=
  fun x => if x = addr then v else m x

/-- Sequential byte writes at increasing addresses, as done by the
`write_mem(addr++, ...)` loops in `init_sail_reset_vector`. -/
def writeBytes : Mem → Nat → List Nat → Mem
  | m, _, [] => m
  | m, a, b :: bs => writeBytes (write_mem m a b) (a + 1) bs

/-! Section: Boot Image Builder (`init_sail_reset_vector`)

`DEFAULT_RSTVEC` is the platform ROM base constant (0x1000) from the
platform headers; `RST_VEC_SIZE` is 8 words.  The reset-vector words are
copied from the source; the 64-bit entry is split into low and high
32-bit words (indices 6 and 7, i.e. byte offset 24 within the vector). -/

def RST_VEC_SIZE : Nat := 8

def DEFAULT_RSTVEC : Nat := 0x1000

/-- The eight 32-bit words of the reset vector (64-bit build, so the
load is `ld t0,24(t0)` = 0x0182b283). -/
def reset_vec (entry : Nat) : List Nat :=
  [0x297,
   0x28593 + RST_VEC_SIZE * 4 * 2 ^ 20,
   0xf1402573,
   0x0182b283,
   0x28067,
   0,
   entry % 4294967296,
   entry / 4294967296 % 4294967296]

/-- Little-endian byte serialization of a 32-bit word, matching the
byte-wise copy `((char *)reset_vec)[i]` on the (little-endian) target. -/
def wordBytes (w : Nat) : List Nat :=
  [w % 256, w / 256 % 256, w / 65536 % 256, w / 16777216 % 256]

def resetVecBytes (entry : Nat) : List Nat :=
  ((reset_vec entry).map wordBytes).flatten

/-- The `dtb && dtb_len` test: a user DTB participates only when the
buffer is present and non-empty. -/
def hasDtb : Option (List Nat) → Bool
  | some d => !d.isEmpty
  | none => false

/-- The DTB equality check from the SPIKE section of
`init_sail_reset_vector`: `matched = dtb_len == spike_dtb_len` and then a
byte-wise conjunction over the user DTB's indices. -/
def dtbMatched (d sd : List Nat) : Bool :=
  (d.length == sd.length) &&
    (List.range d.length).all (fun i => d.getD i 0 == sd.getD i 0)

/-- `(addr + align - 1) / align * align` with `align = 0x1000`. -/
def pageRoundUp (a : Nat) : Nat := (a + 0x1000 - 1) / 0x1000 * 0x1000

/-- The DTB payload written after the vector in a build without the
oracle: the user DTB when present and non-empty, nothing otherwise. -/
def dtbOf (udtb : Option (List Nat)) : List Nat :=
  if hasDtb udtb then udtb.getD [] else []

/-- Result of boot-image construction: either the populated memory with
the recorded ROM base/size and initial `zPC`, or a fatal abort
(`exit(1)`) carrying the guest memory as mutated so far. -/
inductive BootOutcome where
  | ok (mem : Mem) (rom_base rom_size PC : Nat)
  | fatal (mem : Mem)

def bootOk : BootOutcome → Bool
  | .ok _ _ _ _ => true
  | .fatal _ => false

def bootMem : BootOutcome → Mem
  | .ok m _ _ _ => m
  | .fatal m => m

def bootRomBase : BootOutcome → Nat
  | .ok _ b _ _ => b
  | .fatal _ => 0

def bootRomSize : BootOutcome → Nat
  | .ok _ _ s _ => s
  | .fatal _ => 0

def bootPC : BootOutcome → Nat
  | .ok _ _ _ p => p
  | .fatal _ => 0

/-- Embedding of `init_sail_reset_vector`.  `spikeMode` reflects whether
the `SPIKE` section is compiled in; `udtb` is the user-supplied DTB
buffer (`dtb`/`dtb_len`), `spike_dtb` the oracle's.  The write order
follows the source: reset-vector bytes, then the user DTB if present,
then (SPIKE only) either the mismatch check against the oracle DTB or a
copy of the oracle DTB, then zero-fill to the page boundary.  The
zero-fill loop's twin counters `i` and `addr` start equal and advance in
lock step, so it fills exactly `[addr, rom_end)`. -/
def init_sail_reset_vector (spikeMode : Bool) (udtb : Option (List Nat))
    (spike_dtb : List Nat) (entry : Nat) (m0 : Mem) : BootOutcome :=
  let base := DEFAULT_RSTVEC
  let m1 := writeBytes m0 base (resetVecBytes entry)
  let a1 := base + (resetVecBytes entry).length
  let d := udtb.getD []
  let hasU := hasDtb udtb
  let m2 := if hasU then writeBytes m1 a1 d else m1
  let a2 := if hasU then a1 + d.length else a1
  if spikeMode && hasU && !dtbMatched d spike_dtb then
    .fatal m2
  else
    let copySpike := spikeMode && !hasU && (spike_dtb.length != 0)
    let m3 := if copySpike then writeBytes m2 a2 spike_dtb else m2
    let a3 := if copySpike then a2 + spike_dtb.length else a2
    let rom_end := pageRoundUp a3
    let m4 := writeBytes m3 a3 (List.replicate (rom_end - a3) 0)
    .ok m4 base (rom_end - base) base

/-! Section: State Comparator (`compare_states`)

CSR numbers from the source's `#define` block (taken from
riscv-isa-sim's encoding.h). -/

def CSR_SEPC : Nat := 0x141
def CSR_SCAUSE : Nat := 0x142
def CSR_STVAL : Nat := 0x143
def CSR_MSTATUS : Nat := 0x300
def CSR_MEPC : Nat := 0x341
def CSR_MCAUSE : Nat := 0x342
def CSR_MTVAL : Nat := 0x343

/-- Supervisor status CSR number (0x100 in encoding.h).  The source
defines no `CSR_SSTATUS` macro; the constant is only needed here to
state which CSRs the comparator does not inspect. -/
def CSR_SSTATUS : Nat := 0x100

/-- The Sail engine's architectural state as read by `compare_states`:
the globals `zcur_privilege`, `zPC`, `zx1` .. `zx31` (modelled as the
register-file map `x`), and the trap CSRs it passes to the checks. -/
structure SailState where
  cur_privilege : Nat
  PC : Nat
  x : Nat → Nat
  mcause : Nat
  mepc : Nat
  mtval : Nat
  mstatus : Nat
  scause : Nat
  sepc : Nat
  stval : Nat

/-- The oracle's architectural state, addressed the way the `tv_check_*`
interface addresses it: privilege, pc, a GPR file and a CSR file. -/
structure SpikeState where
  priv : Nat
  pc : Nat
  gpr : Nat → Nat
  csr : Nat → Nat

/-- Modelled from the spec: the Oracle Adapter's check compares its own
privilege level with the passed value (§4.4: the Comparator compares
field-by-field; the `tv_check_*` calls are the oracle side of that). -/
def tv_check_priv (t : SpikeState) (v : Nat) : Bool := t.priv == v

/-- Modelled from the spec: oracle-side program-counter comparison. -/
def tv_check_pc (t : SpikeState) (v : Nat) : Bool := t.pc == v

/-- Modelled from the spec: oracle-side general-purpose-register
comparison. -/
def tv_check_gpr (t : SpikeState) (n v : Nat) : Bool := t.gpr n == v

/-- Modelled from the spec: oracle-side CSR comparison. -/
def tv_check_csr (t : SpikeState) (a v : Nat) : Bool := t.csr a == v

/-- The result of each `tv_check_*` call made by `compare_states`, in
source order: privilege (after the privilege-encoding fix-up), pc, the
GPR checks exactly as written (indices 1..31 ascending, with indices 15
and 25 each checked twice, as in the source), then the selected CSRs. -/
def compare_checks (z : SailState) (t : SpikeState) : List Bool :=
  let priv := if z.cur_privilege == 2 then 3 else z.cur_privilege
  [tv_check_priv t priv,
   tv_check_pc t z.PC,
   tv_check_gpr t 1 (z.x 1),
   tv_check_gpr t 2 (z.x 2),
   tv_check_gpr t 3 (z.x 3),
   tv_check_gpr t 4 (z.x 4),
   tv_check_gpr t 5 (z.x 5),
   tv_check_gpr t 6 (z.x 6),
   tv_check_gpr t 7 (z.x 7),
   tv_check_gpr t 8 (z.x 8),
   tv_check_gpr t 9 (z.x 9),
   tv_check_gpr t 10 (z.x 10),
   tv_check_gpr t 11 (z.x 11),
   tv_check_gpr t 12 (z.x 12),
   tv_check_gpr t 13 (z.x 13),
   tv_check_gpr t 14 (z.x 14),
   tv_check_gpr t 15 (z.x 15),
   tv_check_gpr t 15 (z.x 15),
   tv_check_gpr t 16 (z.x 16),
   tv_check_gpr t 17 (z.x 17),
   tv_check_gpr t 18 (z.x 18),
   tv_check_gpr t 19 (z.x 19),
   tv_check_gpr t 20 (z.x 20),
   tv_check_gpr t 21 (z.x 21),
   tv_check_gpr t 22 (z.x 22),
   tv_check_gpr t 23 (z.x 23),
   tv_check_gpr t 24 (z.x 24),
   tv_check_gpr t 25 (z.x 25),
   tv_check_gpr t 25 (z.x 25),
   tv_check_gpr t 26 (z.x 26),
   tv_check_gpr t 27 (z.x 27),
   tv_check_gpr t 28 (z.x 28),
   tv_check_gpr t 29 (z.x 29),
   tv_check_gpr t 30 (z.x 30),
   tv_check_gpr t 31 (z.x 31),
   tv_check_csr t CSR_MCAUSE z.mcause,
   tv_check_csr t CSR_MEPC z.mepc,
   tv_check_csr t CSR_MTVAL z.mtval,
   tv_check_csr t CSR_MSTATUS z.mstatus,
   tv_check_csr t CSR_SCAUSE z.scause,
   tv_check_csr t CSR_SEPC z.sepc,
   tv_check_csr t CSR_STVAL z.stval]

/-- `compare_states`: `passed` starts at 1 and is `&=`-accumulated over
every check call (bitwise and of 0/1 values, so every call is made and
the result is their conjunction). -/
def compare_states (z : SailState) (t : SpikeState) : Bool :=
  (compare_checks z t).all (fun b => b)

/-- Replace one CSR of the oracle state, leaving the rest intact. -/
def setCsr (t : SpikeState) (a v : Nat) : SpikeState :=
  { t with csr := fun x => if x = a then v else t.csr x }

/-! Section: Dual-Engine Scheduler (`run_sail`) and termination (`finish`)

The generated Sail engine is external; one call of `zstep` is modelled
by the trace entry for the current call index: whether the step made
progress (`stepped`), whether `have_exception` is set afterwards,
whether `zhtif_done` is set afterwards, and the value of
`zhtif_exit_code`.  The Spike oracle contributes its `tv_is_done` result
and a per-call architectural snapshot for `compare_states`. -/

structure SailStepR where
  stepped : Bool
  exception : Bool
  done : Bool
  exit_code : Int

/-- The scheduler loop's mutable locals: the next call index (`step_no`
is passed to `zstep`, but calls are counted separately so that a
non-executing step is visible), the retired-instruction counter
`step_no` (`s`), the instruction-tick counter `insn_cnt` (`c`) and the
number of tick-block firings (`t`). -/
structure LoopSt where
  i : Nat
  s : Nat
  c : Nat
  t : Nat

/-- The `if (stepped) { step_no++; insn_cnt++; }` update, together with
the advance to the next call. -/
def countStep (r : SailStepR) (st : LoopSt) : LoopSt :=
  { i := st.i + 1,
    s := if r.stepped then st.s + 1 else st.s,
    c := if r.stepped then st.c + 1 else st.c,
    t := st.t }

/-- The `if (insn_cnt == rv_insns_per_tick) { insn_cnt = 0; ... }` block:
on firing, `ztick_clock`, `ztick_platform` and `tick_spike` are all
invoked (counted once in `t`). -/
def tickStep (N : Nat) (st : LoopSt) : LoopSt :=
  if st.c == N then { st with c := 0, t := st.t + 1 } else st

/-- Observable outcome of a `run_sail` invocation: the process exit
status (`exit`'s argument), the number of `zstep` calls made, the final
`step_no` (retired instructions), the final `insn_cnt`, the number of
firings of the tick block (`ztick_clock`/`ztick_platform`/`tick_spike`,
which are invoked together), the SUCCESS/FAILURE report (the program's
exit code, if the done-report was printed) and whether the given fuel
ran out before the loop terminated. -/
structure RunOutcome where
  status : Nat
  calls : Nat
  retired : Nat
  cnt : Nat
  ticks : Nat
  report : Option Int
  fuel_out : Bool
deriving Repr, DecidableEq

/-- Outcome of leaving the loop at state `st` after `calls` `zstep`
calls, by `finish(st_status)` or `exit(1)`. -/
def exitAt (status calls : Nat) (st : LoopSt) (rep : Option Int) : RunOutcome :=
  ⟨status, calls, st.s, st.c, st.t, rep, false⟩

/-- `run_sail` as compiled without `SPIKE` (oracle absent).  The
exception path jumps past the rest of the loop to `finish(diverged)`
with `diverged = false`, hence exit status 0; normal loop exit (HTIF
done) also reaches `finish(false)` after printing SUCCESS or
`FAILURE: <code>`. -/
def run_sail_solo (tr : Nat → SailStepR) (N : Nat) :
    Nat → LoopSt → RunOutcome
  | 0, st => ⟨0, st.i, st.s, st.c, st.t, none, true⟩
  | fuel + 1, st =>
    let r := tr st.i
    if r.exception then exitAt 0 (st.i + 1) st none
    else
      let st2 := tickStep N (countStep r st)
      if r.done then exitAt 0 (st.i + 1) st2 (some r.exit_code)
      else run_sail_solo tr N fuel st2

/-- `run_sail` as compiled with `SPIKE` (oracle attached).  After the
engine step: the oracle step and `tv_is_done`; a same-step completion
mismatch in either direction is `exit(1)`; then `compare_states` — on
failure `diverged = true` and the loop breaks to `finish(diverged)`,
exit status 1; then the done-report, the tick block, and the loop
condition.  The mismatch and divergence exits happen before the tick
block, so they leave `insn_cnt` as the count block set it. -/
def run_sail_spike (tr : Nat → SailStepR) (sp : Nat → Bool)
    (zs : Nat → SailState) (ts : Nat → SpikeState) (N : Nat) :
    Nat → LoopSt → RunOutcome
  | 0, st => ⟨0, st.i, st.s, st.c, st.t, none, true⟩
  | fuel + 1, st =>
    let r := tr st.i
    if r.exception then exitAt 0 (st.i + 1) st none
    else
      let st1 := countStep r st
      let spike_done := sp st.i
      if r.done && !spike_done then exitAt 1 st1.i st1 none
      else if !r.done && spike_done then exitAt 1 st1.i st1 none
      else if !compare_states (zs st.i) (ts st.i) then exitAt 1 st1.i st1 none
      else
        let st2 := tickStep N st1
        if r.done then exitAt 0 st1.i st2 (some r.exit_code)
        else run_sail_spike tr sp zs ts N fuel st2

/-- `main` for the `SPIKE` build, from the point where
`init_sail_reset_vector` runs: a fatal boot abort is `exit(1)` with no
`zstep` call ever made; otherwise `run_sail` starts from step 0. -/
def sail_main_spike (udtb : Option (List Nat)) (spike_dtb : List Nat)
    (entry : Nat) (m0 : Mem) (tr : Nat → SailStepR) (sp : Nat → Bool)
    (zs : Nat → SailState) (ts : Nat → SpikeState) (N fuel : Nat) : RunOutcome :=
  match init_sail_reset_vector true udtb spike_dtb entry m0 with
  | .fatal _ => ⟨1, 0, 0, 0, 0, none, false⟩
  | .ok _ _ _ _ => run_sail_spike tr sp zs ts N fuel ⟨0, 0, 0, 0⟩

/-! Section: Derived readers and concrete example inputs -/

/-- Little-endian 32-bit read from guest memory, inverse of the
byte-wise store of a `reset_vec` word. -/
def readWord32 (m : Mem) (a : Nat) : Nat :=
  m a + 256 * m (a + 1) + 65536 * m (a + 2) + 16777216 * m (a + 3)

def zeroMem : Mem := fun _ => 0

/-- Engine trace that finishes at the first step with exit code 42. -/
def doneTrace42 : Nat → SailStepR := fun _ => ⟨true, false, true, 42⟩

/-- Engine trace whose first step signals an internal exception. -/
def excTrace : Nat → SailStepR := fun _ => ⟨false, true, false, 0⟩

/-- Engine trace that retires an instruction every step and never
finishes. -/
def runTrace : Nat → SailStepR := fun _ => ⟨true, false, false, 0⟩

/-- All-zero engine snapshot. -/
def zZero : SailState := ⟨0, 0, fun _ => 0, 0, 0, 0, 0, 0, 0, 0⟩

/-- Oracle snapshot matching `zZero` on every compared field, with
supervisor status CSR equal to 5. -/
def tZeroA : SpikeState := ⟨0, 0, fun _ => 0, fun a => if a = CSR_SSTATUS then 5 else 0⟩

/-- Oracle snapshot matching `zZero` on every compared field, with
supervisor status CSR equal to 7. -/
def tZeroB : SpikeState := ⟨0, 0, fun _ => 0, fun a => if a = CSR_SSTATUS then 7 else 0⟩

/-- Engine snapshot in privilege 2 (the Sail C enum encoding of machine
mode). -/
def zPriv2 : SailState := ⟨2, 0x80000000, fun _ => 0, 0, 0, 0, 0, 0, 0, 0⟩

/-- Oracle snapshot identical to `zPriv2` on all compared state but
encoding machine mode as 3. -/
def tPriv3 : SpikeState := ⟨3, 0x80000000, fun _ => 0, fun _ => 0⟩

/-- Matching all-zero snapshot streams and a never-done oracle. -/
def zsZero : Nat → SailState := fun _ => zZero

def tsZero : Nat → SpikeState := fun _ => ⟨0, 0, fun _ => 0, fun _ => 0⟩

def spNever : Nat → Bool := fun _ => false

/-! Section: Helper lemmas -/

theorem writeBytes_nil (m : Mem) (a : Nat) : writeBytes m a [] = m := rfl

theorem writeBytes_apply (bs : List Nat) (m : Mem) (a x : Nat) :
    writeBytes m a bs x =
      if a ≤ x ∧ x < a + bs.length then bs.getD (x - a) 0 else m x := by
  induction bs generalizing m a with
  | nil =>
      rw [writeBytes, if_neg]
      simp only [List.length_nil, Nat.add_zero]
      omega
  | cons b bs ih =>
      rw [writeBytes, ih]
      by_cases hx : x = a
      · subst hx
        rw [if_neg (by omega), if_pos (by simp only [List.length_cons]; omega)]
        simp [write_mem]
      · by_cases hin : a + 1 ≤ x ∧ x < a + 1 + bs.length
        · have h1 : a ≤ x ∧ x < a + (b :: bs).length := by
            simp only [List.length_cons]; omega
          rw [if_pos hin, if_pos h1]
          have hk : x - a = (x - (a + 1)) + 1 := by omega
          rw [hk]
          rfl
        · have h1 : ¬ (a ≤ x ∧ x < a + (b :: bs).length) := by
            simp only [List.length_cons]; omega
          rw [if_neg hin, if_neg h1]
          simp [write_mem, hx]

theorem resetVecBytes_length (entry : Nat) : (resetVecBytes entry).length = 32 := by
  simp [resetVecBytes, reset_vec, wordBytes]

theorem replicate_getD_zero (n k : Nat) : (List.replicate n (0 : Nat)).getD k 0 = 0 := by
  induction n generalizing k with
  | zero => simp [List.replicate]
  | succ n ih =>
      cases k with
      | zero => simp [List.replicate]
      | succ k => simp [List.replicate, ih k]

theorem countStep_i (r : SailStepR) (st : LoopSt) : (countStep r st).i = st.i + 1 := rfl

theorem countStep_s (r : SailStepR) (st : LoopSt) :
    (countStep r st).s = if r.stepped then st.s + 1 else st.s := rfl

theorem countStep_c (r : SailStepR) (st : LoopSt) :
    (countStep r st).c = if r.stepped then st.c + 1 else st.c := rfl

theorem countStep_t (r : SailStepR) (st : LoopSt) : (countStep r st).t = st.t := rfl

theorem tickStep_i (N : Nat) (st : LoopSt) : (tickStep N st).i = st.i := by
  unfold tickStep; split <;> rfl

theorem tickStep_s (N : Nat) (st : LoopSt) : (tickStep N st).s = st.s := by
  unfold tickStep; split <;> rfl

theorem tickStep_c (N : Nat) (st : LoopSt) :
    (tickStep N st).c = if st.c == N then 0 else st.c := by
  unfold tickStep; split <;> rfl

theorem tickStep_t (N : Nat) (st : LoopSt) :
    (tickStep N st).t = if st.c == N then st.t + 1 else st.t := by
  unfold tickStep; split <;> rfl

theorem tickStep_c_lt {N : Nat} (st : LoopSt) (h : st.c ≤ N) (hN : 0 < N) :
    (tickStep N st).c < N := by
  rw [tickStep_c]
  by_cases hc : st.c = N
  · simp [hc, hN]
  · simp only [beq_iff_eq, hc, if_false]
    omega

theorem countStep_cs (r : SailStepR) (st : LoopSt) :
    (countStep r st).c + st.s = st.c + (countStep r st).s := by
  rw [countStep_c, countStep_s]
  split <;> omega

theorem countStep_c_le {N : Nat} (r : SailStepR) (st : LoopSt) (h : st.c < N) :
    (countStep r st).c ≤ N := by
  rw [countStep_c]
  split <;> omega

/-- The tick block preserves the total `N * ticks + insn_cnt` account
and restores `insn_cnt < N`. -/
theorem tickStep_inv (N : Nat) (st : LoopSt) (h : st.c ≤ N) (hN : 0 < N) :
    N * (tickStep N st).t + (tickStep N st).c = N * st.t + st.c ∧
      (tickStep N st).c < N := by
  rw [tickStep_c, tickStep_t]
  cases hc : (st.c == N) with
  | true =>
      have hceq : st.c = N := eq_of_beq hc
      simp [hc, mul_add_one]
      omega
  | false =>
      have hcne : ¬ st.c = N := by
        intro hx
        rw [hx] at hc
        simp at hc
      simp [hc]
      omega

theorem pageRoundUp_bounds (a : Nat) :
    a ≤ pageRoundUp a ∧ pageRoundUp a < a + 4096 ∧ pageRoundUp a % 4096 = 0 := by
  unfold pageRoundUp
  omega

theorem word_recombine (w : Nat) (h : w < 4294967296) :
    w % 256 + 256 * (w / 256 % 256) + 65536 * (w / 65536 % 256) +
      16777216 * (w / 16777216 % 256) = w := by
  omega

/-- A user DTB differing from the oracle DTB in length or in one byte
fails the byte-equality check. -/
theorem dtbMatched_eq_false {d sd : List Nat}
    (h : d.length ≠ sd.length ∨ ∃ i, i < d.length ∧ d.getD i 0 ≠ sd.getD i 0) :
    dtbMatched d sd = false := by
  unfold dtbMatched
  rcases h with h | ⟨i, hi, hne⟩
  · rw [beq_eq_false_iff_ne.mpr h, Bool.false_and]
  · have hall : ((List.range d.length).all fun i => d.getD i 0 == sd.getD i 0) = false := by
      rw [List.all_eq_false]
      refine ⟨i, List.mem_range.mpr hi, ?_⟩
      simp only [beq_iff_eq]
      exact hne
    rw [hall, Bool.and_false]

/-- Shape of a solo-build (`SPIKE` undefined) boot: never fatal; the
memory is the reset-vector bytes, then the user DTB (if present and
non-empty), then the zero fill up to the page boundary. -/
theorem init_solo_eq (udtb : Option (List Nat)) (entry : Nat) (m0 : Mem) :
    init_sail_reset_vector false udtb [] entry m0 =
      .ok (writeBytes
             (writeBytes (writeBytes m0 DEFAULT_RSTVEC (resetVecBytes entry))
               (DEFAULT_RSTVEC + 32) (dtbOf udtb))
             (DEFAULT_RSTVEC + 32 + (dtbOf udtb).length)
             (List.replicate
               (pageRoundUp (DEFAULT_RSTVEC + 32 + (dtbOf udtb).length) -
                 (DEFAULT_RSTVEC + 32 + (dtbOf udtb).length)) 0))
          DEFAULT_RSTVEC
          (pageRoundUp (DEFAULT_RSTVEC + 32 + (dtbOf udtb).length) - DEFAULT_RSTVEC)
          DEFAULT_RSTVEC := by
  unfold init_sail_reset_vector dtbOf
  by_cases h : hasDtb udtb = true
  · simp [h, resetVecBytes_length]
  · rw [Bool.not_eq_true] at h
    simp [h, writeBytes_nil, resetVecBytes_length]

/-- Shape of a `SPIKE`-build boot when a non-empty user DTB disagrees
with the oracle DTB: fatal, with the reset vector and the full user DTB
already written to guest memory. -/
theorem init_spike_fatal (d sd : List Nat) (hne : d ≠ [])
    (hm : dtbMatched d sd = false) (entry : Nat) (m0 : Mem) :
    init_sail_reset_vector true (some d) sd entry m0 =
      .fatal (writeBytes (writeBytes m0 DEFAULT_RSTVEC (resetVecBytes entry))
        (DEFAULT_RSTVEC + 32) d) := by
  have hd : hasDtb (some d) = true := by
    cases d with
    | nil => exact absurd rfl hne
    | cons b bs => rfl
  unfold init_sail_reset_vector
  simp [hd, hm, resetVecBytes_length]

/-! Section: Claim C1 -/

/-- Claim C1 (code divergence): in a solo run that terminates because
the engine reports done with the non-zero program exit code 42, the
loop prints `FAILURE: 42` (the report) but then reaches
`finish(diverged)` with `diverged = false`, so the process exit status
is 0 — contradicting the claim that a non-zero program exit code makes
the process exit non-zero. -/
theorem c1_failure_report_but_exit_zero :
    (run_sail_solo doneTrace42 100 8 ⟨0, 0, 0, 0⟩).status = 0 ∧
      (run_sail_solo doneTrace42 100 8 ⟨0, 0, 0, 0⟩).report = some 42 ∧
      (42 : Int) ≠ 0 := by
  refine ⟨rfl, rfl, by decide⟩

/-! Section: Claim C2 -/

/-- Claim C2 (counterexample): a run whose first `zstep` signals an
internal exception stops at once (exactly one call) but the process
exit status is 0, not non-zero: the `step_exception` label jumps to
`dump_state` and `finish(diverged)` with `diverged` still false. -/
theorem c2_counterexample :
    (excTrace 0).exception = true ∧
      run_sail_solo excTrace 100 8 ⟨0, 0, 0, 0⟩ = ⟨0, 1, 0, 0, 0, none, false⟩ :=
  ⟨rfl, rfl⟩

/-- Claim C2 (amended): when the engine's step signals an internal
exception at the k-th call of a run that has not yet finished, the run
stops with no further steps executed — the excepting call is the last
`zstep` call — and the process exits with status 0 (the `diverged`
flag, which is false on this path). -/
theorem c2_exception_stops_run (tr : Nat → SailStepR) (N k : Nat) :
    ∀ (fuel : Nat) (st : LoopSt),
      k < fuel →
      (∀ j, j < k → (tr (st.i + j)).exception = false ∧ (tr (st.i + j)).done = false) →
      (tr (st.i + k)).exception = true →
      (run_sail_solo tr N fuel st).status = 0 ∧
        (run_sail_solo tr N fuel st).calls = st.i + k + 1 ∧
        (run_sail_solo tr N fuel st).fuel_out = false := by
  induction k with
  | zero =>
      intro fuel st hf hpre hexc
      obtain ⟨f, rfl⟩ : ∃ f, fuel = f + 1 := ⟨fuel - 1, by omega⟩
      rw [Nat.add_zero] at hexc
      simp [run_sail_solo, hexc, exitAt]
  | succ k ih =>
      intro fuel st hf hpre hexc
      obtain ⟨f, rfl⟩ : ∃ f, fuel = f + 1 := ⟨fuel - 1, by omega⟩
      have h0 := hpre 0 (by omega)
      rw [Nat.add_zero] at h0
      have hsti : (tickStep N (countStep (tr st.i) st)).i = st.i + 1 := by
        rw [tickStep_i, countStep_i]
      have hih := ih f (tickStep N (countStep (tr st.i) st)) (by omega)
        (fun j hj => by
          rw [hsti]
          have hx : st.i + 1 + j = st.i + (j + 1) := by omega
          rw [hx]
          exact hpre (j + 1) (by omega))
        (by
          rw [hsti]
          have hx : st.i + 1 + k = st.i + (k + 1) := by omega
          rw [hx]
          exact hexc)
      rw [hsti] at hih
      simp only [run_sail_solo, h0.1, h0.2, Bool.false_eq_true, if_false]
      refine ⟨hih.1, ?_, hih.2.2⟩
      have := hih.2.1
      omega

/-- Witness for the amended C2: an exception at the very first call
(`k = 0`) stops the run after that one call with exit status 0. -/
theorem c2_witness :
    (run_sail_solo excTrace 100 1 ⟨0, 0, 0, 0⟩).status = 0 ∧
      (run_sail_solo excTrace 100 1 ⟨0, 0, 0, 0⟩).calls = 0 + 0 + 1 ∧
      (run_sail_solo excTrace 100 1 ⟨0, 0, 0, 0⟩).fuel_out = false :=
  c2_exception_stops_run excTrace 100 0 1 ⟨0, 0, 0, 0⟩ (by decide)
    (fun j hj => absurd hj (Nat.not_lt_zero j)) rfl

/-! Section: Claim C7 -/

/-- Claim C7: in an oracle-attached run, whenever exactly one of the
two engines reports done after the current step (and the engine step
did not itself raise an exception), the run stops at that call — no
further `zstep` calls — with `exit(1)`, a non-zero process status. -/
theorem c7_completion_mismatch (tr : Nat → SailStepR) (sp : Nat → Bool)
    (zs : Nat → SailState) (ts : Nat → SpikeState) (N fuel : Nat) (st : LoopSt)
    (hf : 0 < fuel) (hexc : (tr st.i).exception = false)
    (hmm : (tr st.i).done ≠ sp st.i) :
    (run_sail_spike tr sp zs ts N fuel st).status = 1 ∧
      (run_sail_spike tr sp zs ts N fuel st).calls = st.i + 1 ∧
      (run_sail_spike tr sp zs ts N fuel st).fuel_out = false := by
  obtain ⟨f, rfl⟩ : ∃ f, fuel = f + 1 := ⟨fuel - 1, by omega⟩
  cases hd : (tr st.i).done with
  | false =>
      cases hs : sp st.i with
      | false => rw [hd, hs] at hmm; exact absurd rfl hmm
      | true => simp [run_sail_spike, hexc, hd, hs, exitAt, countStep_i]
  | true =>
      cases hs : sp st.i with
      | false => simp [run_sail_spike, hexc, hd, hs, exitAt, countStep_i]
      | true => rw [hd, hs] at hmm; exact absurd rfl hmm

/-- Witness for C7: the engine finishes at the first step while the
oracle does not; the run exits with status 1 after that single call. -/
theorem c7_witness :
    (run_sail_spike doneTrace42 spNever zsZero tsZero 100 1 ⟨0, 0, 0, 0⟩).status = 1 ∧
      (run_sail_spike doneTrace42 spNever zsZero tsZero 100 1 ⟨0, 0, 0, 0⟩).calls = 0 + 1 ∧
      (run_sail_spike doneTrace42 spNever zsZero tsZero 100 1 ⟨0, 0, 0, 0⟩).fuel_out = false :=
  c7_completion_mismatch doneTrace42 spNever zsZero tsZero 100 1 ⟨0, 0, 0, 0⟩
    (by decide) rfl (by decide)

/-! Section: Claim C9 -/

/-- Scheduler-loop invariant: running from any state whose `insn_cnt`
is below `rv_insns_per_tick`, the tick count and the leftover
`insn_cnt` account exactly for the retired instructions, and the final
`insn_cnt` is again below the threshold except on the `exit(1)` paths
(which leave the loop before the tick block runs). -/
theorem run_spike_tick_inv (tr : Nat → SailStepR) (sp : Nat → Bool)
    (zs : Nat → SailState) (ts : Nat → SpikeState) (N : Nat) :
    ∀ (fuel : Nat) (st : LoopSt), st.c < N →
      N * (run_sail_spike tr sp zs ts N fuel st).ticks +
          (run_sail_spike tr sp zs ts N fuel st).cnt + st.s =
        N * st.t + st.c + (run_sail_spike tr sp zs ts N fuel st).retired ∧
      ((run_sail_spike tr sp zs ts N fuel st).cnt < N ∨
        (run_sail_spike tr sp zs ts N fuel st).status = 1) := by
  intro fuel
  induction fuel with
  | zero =>
      intro st hc
      refine ⟨by simp [run_sail_spike], Or.inl ?_⟩
      simpa [run_sail_spike] using hc
  | succ f ih =>
      intro st hc
      have hN : 0 < N := by omega
      cases hexc : (tr st.i).exception with
      | true =>
          refine ⟨by simp [run_sail_spike, hexc, exitAt], Or.inl ?_⟩
          simpa [run_sail_spike, hexc, exitAt] using hc
      | false =>
          have hcs := countStep_cs (tr st.i) st
          have hcle := countStep_c_le (tr st.i) st hc
          have htick := tickStep_inv N (countStep (tr st.i) st) hcle hN
          rw [countStep_t] at htick
          cases hd : (tr st.i).done with
          | true =>
              cases hs : sp st.i with
              | false =>
                  refine ⟨?_, Or.inr ?_⟩
                  · simp [run_sail_spike, hexc, hd, hs, exitAt, countStep_t]
                    omega
                  · simp [run_sail_spike, hexc, hd, hs, exitAt]
              | true =>
                  cases hcmp : compare_states (zs st.i) (ts st.i) with
                  | false =>
                      refine ⟨?_, Or.inr ?_⟩
                      · simp [run_sail_spike, hexc, hd, hs, hcmp, exitAt, countStep_t]
                        omega
                      · simp [run_sail_spike, hexc, hd, hs, hcmp, exitAt]
                  | true =>
                      refine ⟨?_, Or.inl ?_⟩
                      · simp [run_sail_spike, hexc, hd, hs, hcmp, exitAt, tickStep_s]
                        omega
                      · simp [run_sail_spike, hexc, hd, hs, hcmp, exitAt]
                        exact htick.2
          | false =>
              cases hs : sp st.i with
              | true =>
                  refine ⟨?_, Or.inr ?_⟩
                  · simp [run_sail_spike, hexc, hd, hs, exitAt, countStep_t]
                    omega
                  · simp [run_sail_spike, hexc, hd, hs, exitAt]
              | false =>
                  cases hcmp : compare_states (zs st.i) (ts st.i) with
                  | false =>
                      refine ⟨?_, Or.inr ?_⟩
                      · simp [run_sail_spike, hexc, hd, hs, hcmp, exitAt, countStep_t]
                        omega
                      · simp [run_sail_spike, hexc, hd, hs, hcmp, exitAt]
                  | true =>
                      have hih := ih (tickStep N (countStep (tr st.i) st)) htick.2
                      rw [tickStep_s] at hih
                      refine ⟨?_, ?_⟩
                      · simp only [run_sail_spike, hexc, hd, hs, hcmp]
                        simp
                        omega
                      · simp only [run_sail_spike, hexc, hd, hs, hcmp]
                        simp
                        exact hih.2

/-- Claim C9: starting the loop with both counters at zero,
`insn_cnt` is incremented only on steps where the engine executed
(`retired` counts exactly those), and the tick block — which invokes
both the engine's `ztick_clock`/`ztick_platform` and the oracle's
`tick_spike` — fires exactly once per `rv_insns_per_tick` retired
instructions: `N * ticks + leftover = retired` with `leftover < N`
(the leftover can equal `N` only transiently on the `exit(1)` paths,
which leave before the tick block). -/
theorem c9_tick_cadence (tr : Nat → SailStepR) (sp : Nat → Bool)
    (zs : Nat → SailState) (ts : Nat → SpikeState) (N fuel i : Nat)
    (hN : 0 < N) :
    N * (run_sail_spike tr sp zs ts N fuel ⟨i, 0, 0, 0⟩).ticks +
        (run_sail_spike tr sp zs ts N fuel ⟨i, 0, 0, 0⟩).cnt =
      (run_sail_spike tr sp zs ts N fuel ⟨i, 0, 0, 0⟩).retired ∧
      ((run_sail_spike tr sp zs ts N fuel ⟨i, 0, 0, 0⟩).cnt < N ∨
        (run_sail_spike tr sp zs ts N fuel ⟨i, 0, 0, 0⟩).status = 1) := by
  have h := run_spike_tick_inv tr sp zs ts N fuel ⟨i, 0, 0, 0⟩ hN
  dsimp only at h
  exact ⟨by have := h.1; omega, h.2⟩

/-- Witness for C9: with one instruction per tick and an engine that
retires an instruction on every step, five steps of fuel give five tick
firings and five retired instructions. -/
theorem c9_witness :
    1 * (run_sail_spike runTrace spNever zsZero tsZero 1 5 ⟨0, 0, 0, 0⟩).ticks +
        (run_sail_spike runTrace spNever zsZero tsZero 1 5 ⟨0, 0, 0, 0⟩).cnt =
      (run_sail_spike runTrace spNever zsZero tsZero 1 5 ⟨0, 0, 0, 0⟩).retired ∧
      ((run_sail_spike runTrace spNever zsZero tsZero 1 5 ⟨0, 0, 0, 0⟩).cnt < 1 ∨
        (run_sail_spike runTrace spNever zsZero tsZero 1 5 ⟨0, 0, 0, 0⟩).status = 1) :=
  c9_tick_cadence runTrace spNever zsZero tsZero 1 5 0 Nat.one_pos

/-! Section: Claim C5 -/

/-- Claim C5: for snapshots that differ only by the known
privilege-encoding skew — the engine's value 2 meaning the oracle's
value 3 — and agree on every other compared field, the comparator
normalizes the engine's privilege before comparing and reports
equality, never a raw inequality. -/
theorem c5_priv_normalization (z : SailState) (t : SpikeState)
    (hz : z.cur_privilege = 2) (ht : t.priv = 3)
    (hpc : t.pc = z.PC) (hg : t.gpr = z.x)
    (hmc : t.csr CSR_MCAUSE = z.mcause) (hme : t.csr CSR_MEPC = z.mepc)
    (hmt : t.csr CSR_MTVAL = z.mtval) (hms : t.csr CSR_MSTATUS = z.mstatus)
    (hsc : t.csr CSR_SCAUSE = z.scause) (hse : t.csr CSR_SEPC = z.sepc)
    (hst : t.csr CSR_STVAL = z.stval) :
    compare_states z t = true := by
  simp [compare_states, compare_checks, tv_check_priv, tv_check_pc,
    tv_check_gpr, tv_check_csr, hz, ht, hpc, hg, hmc, hme, hmt, hms,
    hsc, hse, hst]

/-- Witness for C5: the engine in privilege 2, the oracle in
privilege 3, all other state identical; the comparison passes. -/
theorem c5_witness : compare_states zPriv2 tPriv3 = true :=
  c5_priv_normalization zPriv2 tPriv3 rfl rfl rfl rfl rfl rfl rfl rfl rfl rfl rfl

/-! Section: Claim C6 -/

/-- Claim C6: the comparator makes its checks in source order —
privilege, pc, the general-purpose registers 1..31 (with the source's
duplicated checks of 15 and 25), then the selected CSRs — and every
check call is made regardless of earlier results: the diagnostic list
always has all 42 entries.  The verdict is all-or-nothing: the
comparison passes exactly when the normalized privilege, the pc, every
GPR 1..31 and every selected CSR agree, so any single field mismatch
fails the whole step. -/
theorem c6_compare_all_or_nothing (z : SailState) (t : SpikeState) :
    (compare_checks z t).length = 42 ∧
      (compare_states z t = true ↔
        (t.priv = (if z.cur_privilege = 2 then 3 else z.cur_privilege) ∧
         t.pc = z.PC ∧
         (∀ i, 1 ≤ i → i ≤ 31 → t.gpr i = z.x i) ∧
         t.csr CSR_MCAUSE = z.mcause ∧ t.csr CSR_MEPC = z.mepc ∧
         t.csr CSR_MTVAL = z.mtval ∧ t.csr CSR_MSTATUS = z.mstatus ∧
         t.csr CSR_SCAUSE = z.scause ∧ t.csr CSR_SEPC = z.sepc ∧
         t.csr CSR_STVAL = z.stval)) := by
  refine ⟨rfl, ?_⟩
  simp only [compare_states, compare_checks, tv_check_priv, tv_check_pc, tv_check_gpr,
    tv_check_csr, List.all_cons, List.all_nil, Bool.and_eq_true, Bool.and_true, beq_iff_eq]
  constructor
  · rintro ⟨h1, h2, g1, g2, g3, g4, g5, g6, g7, g8, g9, g10, g11, g12, g13, g14, g15,
      g15b, g16, g17, g18, g19, g20, g21, g22, g23, g24, g25, g25b, g26, g27, g28, g29,
      g30, g31, m1, m2, m3, m4, m5, m6, m7⟩
    refine ⟨h1, h2, ?_, m1, m2, m3, m4, m5, m6, m7⟩
    intro i hi1 hi2
    interval_cases i <;> assumption
  · rintro ⟨h1, h2, hg, m1, m2, m3, m4, m5, m6, m7⟩
    exact ⟨h1, h2,
      hg 1 (by omega) (by omega), hg 2 (by omega) (by omega), hg 3 (by omega) (by omega),
      hg 4 (by omega) (by omega), hg 5 (by omega) (by omega), hg 6 (by omega) (by omega),
      hg 7 (by omega) (by omega), hg 8 (by omega) (by omega), hg 9 (by omega) (by omega),
      hg 10 (by omega) (by omega), hg 11 (by omega) (by omega), hg 12 (by omega) (by omega),
      hg 13 (by omega) (by omega), hg 14 (by omega) (by omega), hg 15 (by omega) (by omega),
      hg 15 (by omega) (by omega), hg 16 (by omega) (by omega), hg 17 (by omega) (by omega),
      hg 18 (by omega) (by omega), hg 19 (by omega) (by omega), hg 20 (by omega) (by omega),
      hg 21 (by omega) (by omega), hg 22 (by omega) (by omega), hg 23 (by omega) (by omega),
      hg 24 (by omega) (by omega), hg 25 (by omega) (by omega), hg 25 (by omega) (by omega),
      hg 26 (by omega) (by omega), hg 27 (by omega) (by omega), hg 28 (by omega) (by omega),
      hg 29 (by omega) (by omega), hg 30 (by omega) (by omega), hg 31 (by omega) (by omega),
      m1, m2, m3, m4, m5, m6, m7⟩

/-- Witness for C6 at concrete snapshots: the diagnostic list has all
42 entries. -/
theorem c6_witness : (compare_checks zZero tZeroA).length = 42 :=
  (c6_compare_all_or_nothing zZero tZeroA).1

/-! Section: Claim C3 -/

/-- Claim C3 (counterexample): two oracle snapshots that differ only in
the supervisor status CSR (values 5 and 7) both pass the comparison
against the same engine snapshot, so the supervisor-level status CSR is
not among the compared set — the comparator checks `mstatus` but never
`sstatus`, refuting "all four CSRs are compared at each of the two
levels". -/
theorem c3_counterexample :
    compare_states zZero tZeroA = true ∧ compare_states zZero tZeroB = true ∧
      tZeroA.csr CSR_SSTATUS ≠ tZeroB.csr CSR_SSTATUS := by
  refine ⟨by decide, by decide, by decide⟩

/-- Claim C3 (amended): the comparator compares cause, exception PC and
trap value at both the machine and supervisor levels, and status at the
machine level only: a passing comparison forces agreement on those
seven CSRs, while the supervisor status CSR never influences the
result. -/
theorem c3_trap_csr_set (z : SailState) (t : SpikeState) :
    (compare_states z t = true →
      (t.csr CSR_MCAUSE = z.mcause ∧ t.csr CSR_MEPC = z.mepc ∧
       t.csr CSR_MTVAL = z.mtval ∧ t.csr CSR_MSTATUS = z.mstatus ∧
       t.csr CSR_SCAUSE = z.scause ∧ t.csr CSR_SEPC = z.sepc ∧
       t.csr CSR_STVAL = z.stval)) ∧
    (∀ v, compare_states z (setCsr t CSR_SSTATUS v) = compare_states z t) := by
  constructor
  · intro h
    simp only [compare_states, compare_checks, tv_check_priv, tv_check_pc, tv_check_gpr,
      tv_check_csr, List.all_cons, List.all_nil, Bool.and_eq_true, Bool.and_true,
      beq_iff_eq] at h
    obtain ⟨-, -, -, -, -, -, -, -, -, -, -, -, -, -, -, -, -, -, -, -, -, -, -, -, -,
      -, -, -, -, -, -, -, -, -, -, m1, m2, m3, m4, m5, m6, m7⟩ := h
    exact ⟨m1, m2, m3, m4, m5, m6, m7⟩
  · intro v
    simp [compare_states, compare_checks, tv_check_priv, tv_check_pc, tv_check_gpr,
      tv_check_csr, setCsr, CSR_SSTATUS, CSR_MCAUSE, CSR_MEPC, CSR_MTVAL, CSR_MSTATUS,
      CSR_SCAUSE, CSR_SEPC, CSR_STVAL]

/-- Witness for the amended C3 at concrete snapshots: a passing
comparison forces machine-cause agreement. -/
theorem c3_witness : tZeroA.csr CSR_MCAUSE = zZero.mcause :=
  ((c3_trap_csr_set zZero tZeroA).1 (by decide)).1

/-! Section: Claim C4 -/

/-- Claim C4: in an oracle-attached run where the user supplied a
(non-empty) DTB and the oracle's DTB differs in length or in even one
byte, boot aborts fatally (`exit(1)`, non-zero status) and no `zstep`
call — hence no instruction — is ever executed. -/
theorem c4_dtb_mismatch_aborts (d sd : List Nat) (entry : Nat) (m0 : Mem)
    (tr : Nat → SailStepR) (sp : Nat → Bool) (zs : Nat → SailState)
    (ts : Nat → SpikeState) (N fuel : Nat) (hne : d ≠ [])
    (hdiff : d.length ≠ sd.length ∨ ∃ i, i < d.length ∧ d.getD i 0 ≠ sd.getD i 0) :
    (sail_main_spike (some d) sd entry m0 tr sp zs ts N fuel).status = 1 ∧
      (sail_main_spike (some d) sd entry m0 tr sp zs ts N fuel).calls = 0 := by
  unfold sail_main_spike
  rw [init_spike_fatal d sd hne (dtbMatched_eq_false hdiff)]
  exact ⟨rfl, rfl⟩

/-- Witness for C4: user DTB `[1]`, oracle DTB `[2]`: fatal abort with
zero steps executed. -/
theorem c4_witness :
    (sail_main_spike (some [1]) [2] 0 zeroMem doneTrace42 spNever zsZero tsZero
        100 5).status = 1 ∧
      (sail_main_spike (some [1]) [2] 0 zeroMem doneTrace42 spNever zsZero tsZero
        100 5).calls = 0 :=
  c4_dtb_mismatch_aborts [1] [2] 0 zeroMem doneTrace42 spNever zsZero tsZero 100 5
    (by decide) (Or.inr ⟨0, by decide, by decide⟩)

/-! Section: Claim C10 -/

/-- Claim C10: when the fatal DTB-mismatch abort fires, guest memory
has already been modified: the 32 reset-vector bytes and the entire
user DTB are in place at the ROM base — the equality check against the
oracle's DTB runs only after the user DTB has been copied in, so the
abort is not atomic with respect to guest memory. -/
theorem c10_abort_after_memory_writes (d sd : List Nat) (entry : Nat) (m0 : Mem)
    (hne : d ≠ [])
    (hdiff : d.length ≠ sd.length ∨ ∃ i, i < d.length ∧ d.getD i 0 ≠ sd.getD i 0) :
    bootOk (init_sail_reset_vector true (some d) sd entry m0) = false ∧
      (∀ i, i < 32 →
        bootMem (init_sail_reset_vector true (some d) sd entry m0)
            (DEFAULT_RSTVEC + i) = (resetVecBytes entry).getD i 0) ∧
      (∀ i, i < d.length →
        bootMem (init_sail_reset_vector true (some d) sd entry m0)
            (DEFAULT_RSTVEC + 32 + i) = d.getD i 0) := by
  rw [init_spike_fatal d sd hne (dtbMatched_eq_false hdiff)]
  refine ⟨rfl, ?_, ?_⟩
  · intro i hi
    simp only [bootMem]
    rw [writeBytes_apply, if_neg (by omega), writeBytes_apply, resetVecBytes_length,
      if_pos (by omega)]
    have hx : DEFAULT_RSTVEC + i - DEFAULT_RSTVEC = i := by omega
    rw [hx]
  · intro i hi
    simp only [bootMem]
    rw [writeBytes_apply, if_pos (by omega)]
    have hx : DEFAULT_RSTVEC + 32 + i - (DEFAULT_RSTVEC + 32) = i := by omega
    rw [hx]

/-- Witness for C10: with user DTB `[9]` and oracle DTB `[8]`, the
abort leaves the DTB byte already written after the vector. -/
theorem c10_witness :
    bootMem (init_sail_reset_vector true (some [9]) [8] 0 zeroMem)
      (DEFAULT_RSTVEC + 32 + 0) = [9].getD 0 0 :=
  (c10_abort_after_memory_writes [9] [8] 0 zeroMem (by decide)
      (Or.inr ⟨0, by decide, by decide⟩)).2.2 0 (by decide)

/-! Section: Claim C8 -/

/-- Claim C8: for every entry address and optional DTB, the boot writes
at the fixed ROM base `DEFAULT_RSTVEC`: the fixed 32-byte reset vector
whose words 6 and 7 (byte offset 24) hold the 64-bit entry address as
low word then high word, with `low + 2^32 * high` reconstructing the
entry; immediately after the vector the DTB bytes when present; then
zero-fill up to the next page boundary.  The recorded ROM size equals
this padded length — a multiple of the 0x1000 page covering the image
with less than a page of padding — and the initial `zPC` is the ROM
base. -/
theorem c8_boot_image (entry : Nat) (udtb : Option (List Nat)) (m0 : Mem)
    (he : entry < 18446744073709551616) :
    ∀ o, o = init_sail_reset_vector false udtb [] entry m0 →
      bootOk o = true ∧
      bootRomBase o = DEFAULT_RSTVEC ∧
      bootPC o = DEFAULT_RSTVEC ∧
      bootRomSize o =
        pageRoundUp (DEFAULT_RSTVEC + 32 + (dtbOf udtb).length) - DEFAULT_RSTVEC ∧
      bootRomSize o % 4096 = 0 ∧
      32 + (dtbOf udtb).length ≤ bootRomSize o ∧
      bootRomSize o < 32 + (dtbOf udtb).length + 4096 ∧
      (∀ i, i < 32 → bootMem o (DEFAULT_RSTVEC + i) = (resetVecBytes entry).getD i 0) ∧
      readWord32 (bootMem o) (DEFAULT_RSTVEC + 24) = entry % 4294967296 ∧
      readWord32 (bootMem o) (DEFAULT_RSTVEC + 28) = entry / 4294967296 ∧
      readWord32 (bootMem o) (DEFAULT_RSTVEC + 24) +
          4294967296 * readWord32 (bootMem o) (DEFAULT_RSTVEC + 28) = entry ∧
      (∀ i, i < (dtbOf udtb).length →
        bootMem o (DEFAULT_RSTVEC + 32 + i) = (dtbOf udtb).getD i 0) ∧
      (∀ i, 32 + (dtbOf udtb).length ≤ i → i < bootRomSize o →
        bootMem o (DEFAULT_RSTVEC + i) = 0) := by
  intro o ho
  have hpage := pageRoundUp_bounds (DEFAULT_RSTVEC + 32 + (dtbOf udtb).length)
  have hB : DEFAULT_RSTVEC = 4096 := rfl
  have hok : bootOk o = true := by rw [ho, init_solo_eq]; rfl
  have hbase : bootRomBase o = DEFAULT_RSTVEC := by rw [ho, init_solo_eq]; rfl
  have hpc : bootPC o = DEFAULT_RSTVEC := by rw [ho, init_solo_eq]; rfl
  have hsize : bootRomSize o =
      pageRoundUp (DEFAULT_RSTVEC + 32 + (dtbOf udtb).length) - DEFAULT_RSTVEC := by
    rw [ho, init_solo_eq]; rfl
  have hvec : ∀ i, i < 32 →
      bootMem o (DEFAULT_RSTVEC + i) = (resetVecBytes entry).getD i 0 := by
    intro i hi
    rw [ho, init_solo_eq]
    simp only [bootMem]
    rw [writeBytes_apply, List.length_replicate, if_neg (by omega),
      writeBytes_apply, if_neg (by omega),
      writeBytes_apply, resetVecBytes_length, if_pos (by omega)]
    have hx : DEFAULT_RSTVEC + i - DEFAULT_RSTVEC = i := by omega
    rw [hx]
  have ha1 : DEFAULT_RSTVEC + 24 + 1 = DEFAULT_RSTVEC + 25 := by omega
  have ha2 : DEFAULT_RSTVEC + 24 + 2 = DEFAULT_RSTVEC + 26 := by omega
  have ha3 : DEFAULT_RSTVEC + 24 + 3 = DEFAULT_RSTVEC + 27 := by omega
  have hb1 : DEFAULT_RSTVEC + 28 + 1 = DEFAULT_RSTVEC + 29 := by omega
  have hb2 : DEFAULT_RSTVEC + 28 + 2 = DEFAULT_RSTVEC + 30 := by omega
  have hb3 : DEFAULT_RSTVEC + 28 + 3 = DEFAULT_RSTVEC + 31 := by omega
  have hw24 : readWord32 (bootMem o) (DEFAULT_RSTVEC + 24) = entry % 4294967296 := by
    simp only [readWord32]
    rw [ha1, ha2, ha3, hvec 24 (by norm_num), hvec 25 (by norm_num),
      hvec 26 (by norm_num), hvec 27 (by norm_num)]
    exact word_recombine (entry % 4294967296) (Nat.mod_lt _ (by norm_num))
  have hw28 : readWord32 (bootMem o) (DEFAULT_RSTVEC + 28) = entry / 4294967296 := by
    simp only [readWord32]
    rw [hb1, hb2, hb3, hvec 28 (by norm_num), hvec 29 (by norm_num),
      hvec 30 (by norm_num), hvec 31 (by norm_num)]
    have h := word_recombine (entry / 4294967296 % 4294967296) (Nat.mod_lt _ (by norm_num))
    have hq : entry / 4294967296 % 4294967296 = entry / 4294967296 := by omega
    exact h.trans hq
  have hdtb : ∀ i, i < (dtbOf udtb).length →
      bootMem o (DEFAULT_RSTVEC + 32 + i) = (dtbOf udtb).getD i 0 := by
    intro i hi
    rw [ho, init_solo_eq]
    simp only [bootMem]
    rw [writeBytes_apply, List.length_replicate, if_neg (by omega),
      writeBytes_apply, if_pos (by omega)]
    have hx : DEFAULT_RSTVEC + 32 + i - (DEFAULT_RSTVEC + 32) = i := by omega
    rw [hx]
  have hzero : ∀ i, 32 + (dtbOf udtb).length ≤ i → i < bootRomSize o →
      bootMem o (DEFAULT_RSTVEC + i) = 0 := by
    intro i h1 h2
    rw [hsize] at h2
    rw [ho, init_solo_eq]
    simp only [bootMem]
    rw [writeBytes_apply, List.length_replicate, if_pos (by omega)]
    exact replicate_getD_zero _ _
  exact ⟨hok, hbase, hpc, hsize, by rw [hsize]; omega, by rw [hsize]; omega,
    by rw [hsize]; omega, hvec, hw24, hw28, by rw [hw24, hw28]; omega, hdtb, hzero⟩

/-- Witness for C8: entry `0x80000000` with user DTB `[1, 2, 3]`; the
boot succeeds and the program counter starts at the ROM base. -/
theorem c8_witness :
    bootOk (init_sail_reset_vector false (some [1, 2, 3]) [] 0x80000000 zeroMem) = true ∧
      bootPC (init_sail_reset_vector false (some [1, 2, 3]) [] 0x80000000 zeroMem) =
        DEFAULT_RSTVEC :=
  ⟨(c8_boot_image 0x80000000 (some [1, 2, 3]) zeroMem (by norm_num) _ rfl).1,
   (c8_boot_image 0x80000000 (some [1, 2, 3]) zeroMem (by norm_num) _ rfl).2.2.1⟩

end SailRiscvSim
